import Mathlib

/-!
# AutoTypeSelectDialog: a shallow embedding

A shallow embedding of `AutoTypeSelectDialog.cpp` (the KeePassXC auto-type
match-selection dialog) together with proofs about its behaviour.

Pure model of the dialog's state and of each slot/handler defined in the
source file.  External collaborators are modelled narrowly:
* the text-search collaborator (`EntrySearcher::search`) is a function
  parameter `f : String → List Entry → List Entry`;
* the candidate-list widget (`AutoTypeMatchView`) keeps a base list, a
  displayed list and a current row;
* the clipboard records the last delivered string;
* the debounce timer is a Boolean "armed" flag;
* closing the dialog (by `accept()`, `reject()` or a window close) delivers
  the close event to the dialog's close handler exactly once, after the
  triggering handler has completed.
-/

/-- A credential entry, with the fields this dialog reads
(`username()`, `password()`, `hasTotp()`, `totp()`,
`effectiveAutoTypeSequence()`, `autoTypeAssociations()`; an association is
read only through its `sequence` string). -/
structure Entry where
  username : String
  password : String
  totp : String
  hasTotp : Bool
  effectiveAutoTypeSequence : String
  autoTypeAssociations : List String
deriving DecidableEq, Repr

/-- `AutoTypeMatch`: a pair of a nullable entry pointer and a sequence
string.  `first = none` models a null entry pointer. -/
structure AutoTypeMatch where
  first : Option Entry
  second : String
deriving DecidableEq, Repr

instance : Inhabited AutoTypeMatch := ⟨⟨none, ""⟩⟩

/-- A database; the dialog only reads `db->rootGroup()`, which we model as
the list of entries reachable from the root group. -/
structure Database where
  rootGroup : List Entry
deriving DecidableEq, Repr

/-- The candidate-list widget (`AutoTypeMatchView`).  `baseList` is the
full list last handed to the widget, `displayed` the (possibly filtered)
rows shown, `currentRow` the current selection (`none` = invalid index). -/
structure MatchView where
  baseList : List AutoTypeMatch
  displayed : List AutoTypeMatch
  currentRow : Option Nat
deriving DecidableEq, Repr

namespace MatchView

/-- Modelled from the spec: `AutoTypeMatchView::setMatchList` replaces the
widget's list and resets the current selection to the first item of the new
list, or to no selection when the list is empty ("every dispatch resets the
current selection to the first item of the new displayed set (or none if
empty)"). -/
def setMatchList (l : List AutoTypeMatch) (_v : MatchView) : MatchView :=
  { baseList := l
    displayed := l
    currentRow := if l.isEmpty then none else some 0 }

/-- Modelled from the spec: `AutoTypeMatchView::filterList` narrows the
displayed rows to the members of the widget's full list that satisfy a
widget-defined substring predicate for the given text; empty text restores
the full list.  The selection is reset to the first displayed item. -/
def filterList (pred : String → AutoTypeMatch → Bool) (text : String)
    (v : MatchView) : MatchView :=
  let d := if text = "" then v.baseList else v.baseList.filter (pred text)
  { v with displayed := d, currentRow := if d.isEmpty then none else some 0 }

/-- Modelled from the spec: `AutoTypeMatchView::currentMatch` returns the
match at the current row, or a match with a null entry pointer when there
is no current selection (the source checks `currentMatch().first` for
exactly this case). -/
def currentMatch (v : MatchView) : AutoTypeMatch :=
  match v.currentRow with
  | some i => v.displayed.getD i ⟨none, ""⟩
  | none => ⟨none, ""⟩

/-- `AutoTypeSelectDialog::moveSelectionUp`: take the current index's
sibling at `row - 1` and select it if valid.  A sibling of an invalid index
is invalid; a sibling at row `r` is valid iff `0 ≤ r < rowCount`. -/
def moveSelectionUp (v : MatchView) : MatchView :=
  match v.currentRow with
  | none => v
  | some i =>
      if 0 ≤ (i : Int) - 1 ∧ (i : Int) - 1 < v.displayed.length then
        { v with currentRow := some (i - 1) }
      else v

/-- `AutoTypeSelectDialog::moveSelectionDown`: take the current index's
sibling at `row + 1` and select it if valid. -/
def moveSelectionDown (v : MatchView) : MatchView :=
  match v.currentRow with
  | none => v
  | some i =>
      if 0 ≤ (i : Int) + 1 ∧ (i : Int) + 1 < v.displayed.length then
        { v with currentRow := some (i + 1) }
      else v

end MatchView

/-- Terminal dialog results (`QDialog::Accepted` / `QDialog::Rejected`). -/
inductive Outcome where
  | accepted
  | cancelled
deriving DecidableEq, Repr

/-- The dialog's state.  `result = none` means the session is still open.
`activatedEvents` records every `matchActivated` emission in order and
`rejectedCount` the number of `rejected` emissions written in the dialog's
own code. -/
structure DialogState where
  m_matches : List AutoTypeMatch
  dbs : List Database
  view : MatchView
  searchText : String
  filterRadio : Bool
  accepted : Bool
  timerPending : Bool
  result : Option Outcome
  activatedEvents : List AutoTypeMatch
  rejectedCount : Nat
  clipboard : Option String
deriving DecidableEq, Repr

/-- `QDialog::accept()`: close the dialog with result `Accepted`. -/
def acceptDialog (s : DialogState) : DialogState :=
  { s with result := some Outcome.accepted }

/-- `QDialog::reject()`: close the dialog with result `Rejected`. -/
def rejectDialog (s : DialogState) : DialogState :=
  { s with result := some Outcome.cancelled }

/-- `AutoTypeSelectDialog::submitAutoTypeMatch`, line for line:
`accept(); m_accepted = true; emit matchActivated(match);`. -/
def submitAutoTypeMatch (s : DialogState) (m : AutoTypeMatch) : DialogState :=
  let s1 := acceptDialog s
  let s2 := { s1 with accepted := true }
  { s2 with activatedEvents := s2.activatedEvents ++ [m] }

/-- `AutoTypeSelectDialog::activateCurrentMatch`:
`submitAutoTypeMatch(m_ui->view->currentMatch());` with no guard. -/
def activateCurrentMatch (s : DialogState) : DialogState :=
  submitAutoTypeMatch s (MatchView.currentMatch s.view)

/-- The body of `AutoTypeSelectDialog::closeEvent` (window-geometry
persistence aside): `if (!m_accepted) { emit rejected(); }`. -/
def closeEventHandler (s : DialogState) : DialogState :=
  if s.accepted then s else { s with rejectedCount := s.rejectedCount + 1 }

/-- The body of `for (auto assoc : entry->autoTypeAssociations()->getAll())`
in `performSearch`: the accumulator pairs the growing `matches` list with the
per-entry `sequences` set,
`if (!sequences.contains(assoc.sequence) && !assoc.sequence.isEmpty())`
append the match and record the sequence. -/
def assocLoopBody (entry : Entry) (p : List AutoTypeMatch × List String)
    (assoc : String) : List AutoTypeMatch × List String :=
  if ¬ p.2.contains assoc ∧ ¬ assoc = "" then
    (p.1 ++ [⟨some entry, assoc⟩], p.2 ++ [assoc])
  else p

/-- The body of `for (auto entry : found)` in `performSearch`: start a fresh
per-entry `sequences` set, append the effective (default) sequence when
non-empty, then run the association loop. -/
def entryLoopBody (m_matches : List AutoTypeMatch) (entry : Entry) :
    List AutoTypeMatch :=
  let defSequence := entry.effectiveAutoTypeSequence
  let p : List AutoTypeMatch × List String :=
    if ¬ defSequence = "" then
      (m_matches ++ [⟨some entry, defSequence⟩], [defSequence])
    else (m_matches, [])
  (entry.autoTypeAssociations.foldl (assocLoopBody entry) p).1

/-- The Search-mode collection loop of `AutoTypeSelectDialog::performSearch`:
for each db, run the searcher on `db->rootGroup()` and fold the found
entries into the `matches` list. -/
def performSearchMatches (f : String → List Entry → List Entry)
    (text : String) (dbs : List Database) : List AutoTypeMatch :=
  dbs.foldl (fun m_matches db => (f text db.rootGroup).foldl entryLoopBody m_matches) []

/-- `AutoTypeSelectDialog::performSearch`: in Filter mode forward the text
to the view's filter; in Search mode show nothing for an empty text, else
rebuild the list from the stores.  Every branch only updates the view. -/
def performSearch (f : String → List Entry → List Entry)
    (pred : String → AutoTypeMatch → Bool) (s : DialogState) : DialogState :=
  { s with view :=
      if s.filterRadio then
        MatchView.filterList pred s.searchText s.view
      else if s.searchText = "" then
        MatchView.setMatchList [] s.view
      else
        MatchView.setMatchList (performSearchMatches f s.searchText s.dbs) s.view }

/-- The `filterRadio` toggled(true) handler: reset the view to the original
match list, then `performSearch()`. -/
def filterRadioToggledOn (f : String → List Entry → List Entry)
    (pred : String → AutoTypeMatch → Bool) (s : DialogState) : DialogState :=
  performSearch f pred { s with view := MatchView.setMatchList s.m_matches s.view }

/-- The `searchRadio` toggled(true) handler: `performSearch()`. -/
def searchRadioToggledOn (f : String → List Entry → List Entry)
    (pred : String → AutoTypeMatch → Bool) (s : DialogState) : DialogState :=
  performSearch f pred s

/-- `AutoTypeSelectDialog::setMatches`: store the match list and databases,
hand the match list to the view, then check `searchRadio` when the match list
is empty and `filterRadio` otherwise (checking a radio fires its
toggled(true) handler). -/
def setMatches (f : String → List Entry → List Entry)
    (pred : String → AutoTypeMatch → Bool)
    (m_matches : List AutoTypeMatch) (dbs : List Database)
    (s : DialogState) : DialogState :=
  let s1 := { s with
    m_matches := m_matches
    dbs := dbs
    view := MatchView.setMatchList m_matches s.view }
  if m_matches.isEmpty then
    searchRadioToggledOn f pred { s1 with filterRadio := false }
  else
    filterRadioToggledOn f pred { s1 with filterRadio := true }

/-- The `copyUsernameAction` triggered handler:
`clipboard()->setText(m_ui->view->currentMatch().first->username()); reject();`.
The entry pointer is dereferenced with no null guard; the null case is the
handler's error branch, modelled as `none`. -/
def copyUsernameAction (s : DialogState) : Option DialogState :=
  match (MatchView.currentMatch s.view).first with
  | none => none
  | some entry => some (rejectDialog { s with clipboard := some entry.username })

/-- The `copyPasswordAction` triggered handler; null dereference as `none`. -/
def copyPasswordAction (s : DialogState) : Option DialogState :=
  match (MatchView.currentMatch s.view).first with
  | none => none
  | some entry => some (rejectDialog { s with clipboard := some entry.password })

/-- The `copyTotpAction` triggered handler; null dereference as `none`. -/
def copyTotpAction (s : DialogState) : Option DialogState :=
  match (MatchView.currentMatch s.view).first with
  | none => none
  | some entry => some (rejectDialog { s with clipboard := some entry.totp })

/-- The `customContextMenuRequested` handler: pop up the action menu only
`if (m_ui->view->currentMatch().first)`.  It never dereferences the entry,
so it never faults; the returned Bool says whether the menu was popped. -/
def contextMenuRequested (s : DialogState) : Option Bool :=
  if (MatchView.currentMatch s.view).first.isSome then some true else some false

/-- The discrete input events a session reacts to, one per connected
signal/filtered key in the source. -/
inductive Event where
  /-- `textChanged(QString)` on the search box; also starts the debounce
  timer (`SLOT(start())`). -/
  | textChanged (t : String)
  /-- the debounce timer's `timeout()`, connected to `performSearch()`. -/
  | timerFire
  /-- `returnPressed()` on the search box, connected to
  `activateCurrentMatch()`. -/
  | returnPressed
  /-- `QToolButton::clicked` on the action button, connected to
  `activateCurrentMatch`. -/
  | actionClicked
  /-- `AutoTypeMatchView::matchActivated` (double-click on row `i`),
  connected to `submitAutoTypeMatch`. -/
  | viewActivated (i : Nat)
  /-- `Qt::Key_Up` in the search box (eventFilter). -/
  | keyUp
  /-- `Qt::Key_Down` in the search box (eventFilter). -/
  | keyDown
  /-- `Qt::Key_Escape` in the search box (eventFilter). -/
  | keyEscape
  /-- `clicked()` on the cancel button, connected to `reject()`. -/
  | cancelClicked
  /-- the user checks the filter radio (fires toggled(true) if it was
  unchecked; no signal if already checked). -/
  | filterRadioClicked
  /-- the user checks the search radio. -/
  | searchRadioClicked
  /-- `typeUsernameAction` triggered. -/
  | typeUsernameTriggered
  /-- `typePasswordAction` triggered. -/
  | typePasswordTriggered
  /-- `typeTotpAction` triggered. -/
  | typeTotpTriggered
  /-- `copyUsernameAction` triggered. -/
  | copyUsernameTriggered
  /-- `copyPasswordAction` triggered. -/
  | copyPasswordTriggered
  /-- `copyTotpAction` triggered. -/
  | copyTotpTriggered
  /-- a window-system close (`QCloseEvent`). -/
  | windowClose
deriving DecidableEq, Repr

/-- The handler the dialog runs for each event while it is open.  Each arm
transcribes the corresponding slot or eventFilter branch of the source; the
copy arms use the unguarded copy handlers, whose null-dereference branch
(`none`, unreachable while a match is selected) is modelled as leaving the
state unchanged. -/
def handle (f : String → List Entry → List Entry)
    (pred : String → AutoTypeMatch → Bool)
    (s : DialogState) : Event → DialogState
  | Event.textChanged t => { s with searchText := t, timerPending := true }
  | Event.timerFire =>
      if s.timerPending then performSearch f pred { s with timerPending := false }
      else s
  | Event.returnPressed => activateCurrentMatch s
  | Event.actionClicked => activateCurrentMatch s
  | Event.viewActivated i =>
      if i < s.view.displayed.length then
        submitAutoTypeMatch s (s.view.displayed.getD i ⟨none, ""⟩)
      else s
  | Event.keyUp => { s with view := MatchView.moveSelectionUp s.view }
  | Event.keyDown => { s with view := MatchView.moveSelectionDown s.view }
  | Event.keyEscape =>
      if s.searchText = "" then rejectDialog s
      else { s with searchText := "", timerPending := true }
  | Event.cancelClicked => rejectDialog s
  | Event.filterRadioClicked =>
      if s.filterRadio then s
      else filterRadioToggledOn f pred { s with filterRadio := true }
  | Event.searchRadioClicked =>
      if s.filterRadio then searchRadioToggledOn f pred { s with filterRadio := false }
      else s
  | Event.typeUsernameTriggered =>
      submitAutoTypeMatch s ⟨(MatchView.currentMatch s.view).first, "{USERNAME}"⟩
  | Event.typePasswordTriggered =>
      submitAutoTypeMatch s ⟨(MatchView.currentMatch s.view).first, "{PASSWORD}"⟩
  | Event.typeTotpTriggered =>
      submitAutoTypeMatch s ⟨(MatchView.currentMatch s.view).first, "{TOTP}"⟩
  | Event.copyUsernameTriggered => (copyUsernameAction s).getD s
  | Event.copyPasswordTriggered => (copyPasswordAction s).getD s
  | Event.copyTotpTriggered => (copyTotpAction s).getD s
  | Event.windowClose => s

/-- One step of the session: a closed (destroyed) dialog processes nothing;
a window close runs the close handler and then the base-class close
(`reject()` on a still-open dialog); any other handler that closes the
dialog is followed by exactly one delivery of the close event during
teardown. -/
def step (f : String → List Entry → List Entry)
    (pred : String → AutoTypeMatch → Bool)
    (s : DialogState) (ev : Event) : DialogState :=
  if s.result.isSome then s
  else if ev = Event.windowClose then rejectDialog (closeEventHandler s)
  else
    let s1 := handle f pred s ev
    if s1.result.isSome then closeEventHandler s1 else s1

/-- Run a session over a list of events. -/
def run (f : String → List Entry → List Entry)
    (pred : String → AutoTypeMatch → Bool)
    (s : DialogState) (es : List Event) : DialogState :=
  es.foldl (step f pred) s

/-- The state of a freshly constructed dialog, before `setMatches`. -/
def initialDialog : DialogState :=
  { m_matches := []
    dbs := []
    view := { baseList := [], displayed := [], currentRow := none }
    searchText := ""
    filterRadio := false
    accepted := false
    timerPending := false
    result := none
    activatedEvents := []
    rejectedCount := 0
    clipboard := none }

/-- A session as the caller starts it: construct the dialog, then
`setMatches(matchList, dbs)`. -/
def openSession (f : String → List Entry → List Entry)
    (pred : String → AutoTypeMatch → Bool)
    (matchList : List AutoTypeMatch) (dbs : List Database) : DialogState :=
  setMatches f pred matchList dbs initialDialog

/-- The enabled flags of the action button (`m_ui->action`) and of the six
menu actions, in the order `buildActionMenu` adds them:
actions[0] type-username, actions[1] type-password, actions[2] type-TOTP,
actions[3] copy-username, actions[4] copy-password, actions[5] copy-TOTP. -/
structure ActionMenuUi where
  actionEnabled : Bool
  typeUsernameEnabled : Bool
  typePasswordEnabled : Bool
  typeTotpEnabled : Bool
  copyUsernameEnabled : Bool
  copyPasswordEnabled : Bool
  copyTotpEnabled : Bool
deriving DecidableEq, Repr

/-- `buildActionMenu` creates the six actions; widgets and actions are
enabled by default. -/
def buildActionMenu : ActionMenuUi :=
  { actionEnabled := true
    typeUsernameEnabled := true
    typePasswordEnabled := true
    typeTotpEnabled := true
    copyUsernameEnabled := true
    copyPasswordEnabled := true
    copyTotpEnabled := true }

/-- `AutoTypeSelectDialog::updateActionMenu`: with no matched entry only
the action button is disabled (early return); otherwise the button is
enabled and `actions[0..5]` get the username / password / TOTP flags read
from the selected entry. -/
def updateActionMenu (ui : ActionMenuUi) (m : AutoTypeMatch) : ActionMenuUi :=
  match m.first with
  | none => { ui with actionEnabled := false }
  | some entry =>
      let hasUsername := ¬ entry.username = ""
      let hasPassword := ¬ entry.password = ""
      let hasTotp := entry.hasTotp
      { actionEnabled := true
        typeUsernameEnabled := hasUsername
        typePasswordEnabled := hasPassword
        typeTotpEnabled := hasTotp
        copyUsernameEnabled := hasUsername
        copyPasswordEnabled := hasPassword
        copyTotpEnabled := hasTotp }

/-- Modelled from the spec's words (§4.1), for comparison with
`performSearchMatches`: "one Match per associated sequence whose string is
both non-empty and not already emitted for that entry (dedup by exact
string equality, case-sensitive, first-seen-wins)".  `emitted` is the list
of sequences already emitted for this entry. -/
def specEmit (entry : Entry) (emitted : List String) :
    List String → List AutoTypeMatch
  | [] => []
  | a :: rest =>
      if a ≠ "" ∧ a ∉ emitted then
        ⟨some entry, a⟩ :: specEmit entry (a :: emitted) rest
      else specEmit entry emitted rest

/-- Modelled from the spec's words (§4.1), for comparison with
`performSearchMatches`: "Emit one Match for the default sequence if
non-empty, then one Match per associated sequence ... not already emitted
for that entry"; default first, associations in stored order. -/
def specEntryMatches (entry : Entry) : List AutoTypeMatch :=
  if entry.effectiveAutoTypeSequence ≠ "" then
    ⟨some entry, entry.effectiveAutoTypeSequence⟩ ::
      specEmit entry [entry.effectiveAutoTypeSequence] entry.autoTypeAssociations
  else
    specEmit entry [] entry.autoTypeAssociations

/-!
## Sample data for concrete witnesses
-/

/-- A sample search collaborator: return every entry of the root group. -/
def sampleSearch : String → List Entry → List Entry := fun _ g => g

/-- A sample view filter predicate: keep rows whose sequence equals the
query text. -/
def sampleFilter : String → AutoTypeMatch → Bool := fun t m => m.second == t

/-- A sample entry with a username, no password and no TOTP. -/
def entryBob : Entry :=
  { username := "bob"
    password := ""
    totp := ""
    hasTotp := false
    effectiveAutoTypeSequence := "{USERNAME}{ENTER}"
    autoTypeAssociations := ["{USERNAME}{ENTER}", "{TOTP}"] }

/-- A sample match for `entryBob`. -/
def matchBob : AutoTypeMatch := ⟨some entryBob, "{USERNAME}{ENTER}"⟩

/-- A sample open session with one displayed match, selected. -/
def sampleOpenDialog : DialogState :=
  { m_matches := [matchBob]
    dbs := []
    view := { baseList := [matchBob], displayed := [matchBob], currentRow := some 0 }
    searchText := "abc"
    filterRadio := true
    accepted := false
    timerPending := false
    result := none
    activatedEvents := []
    rejectedCount := 0
    clipboard := none }

/-- A sample open session with an empty displayed list and no selection. -/
def sampleEmptyDialog : DialogState :=
  { m_matches := []
    dbs := []
    view := { baseList := [], displayed := [], currentRow := none }
    searchText := ""
    filterRadio := false
    accepted := false
    timerPending := false
    result := none
    activatedEvents := []
    rejectedCount := 0
    clipboard := none }

/-- A sample view with two rows and the second row selected. -/
def sampleView : MatchView :=
  { baseList := [matchBob, ⟨some entryBob, "{TOTP}"⟩]
    displayed := [matchBob, ⟨some entryBob, "{TOTP}"⟩]
    currentRow := some 1 }

/-!
## Claims
-/

/-- C1: the claim says activating with no selection is a no-op.  The code
has no guard: at the failing input (a session opened with an empty match
list, hence no selection, and Enter pressed in the search box) the dialog
closes as `Accepted` and emits `matchActivated` carrying a match with a
null entry pointer. -/
theorem enter_with_no_selection_closes_accepted :
    (step sampleSearch sampleFilter (openSession sampleSearch sampleFilter [] [])
        Event.returnPressed).result = some Outcome.accepted ∧
    (step sampleSearch sampleFilter (openSession sampleSearch sampleFilter [] [])
        Event.returnPressed).activatedEvents = [⟨none, ""⟩] := by
  constructor <;> rfl

/-- C2 counterexample: the claim says an empty selection disables all six
actions.  At a concrete input (the freshly built menu, whose actions are
enabled by default, receiving a selection-change to no match) none of the
six actions is disabled — `updateActionMenu` early-returns after disabling
only the action button. -/
theorem updateActionMenu_empty_selection_leaves_actions_enabled :
    ¬ ((updateActionMenu buildActionMenu ⟨none, ""⟩).typeUsernameEnabled = false ∧
       (updateActionMenu buildActionMenu ⟨none, ""⟩).typePasswordEnabled = false ∧
       (updateActionMenu buildActionMenu ⟨none, ""⟩).typeTotpEnabled = false ∧
       (updateActionMenu buildActionMenu ⟨none, ""⟩).copyUsernameEnabled = false ∧
       (updateActionMenu buildActionMenu ⟨none, ""⟩).copyPasswordEnabled = false ∧
       (updateActionMenu buildActionMenu ⟨none, ""⟩).copyTotpEnabled = false) := by
  decide

/-- C2 (amended): on a selection-change event with no selected match only
the action button is disabled, the six actions keeping their previous
enablement; with a selected match the button is enabled and each type/copy
pair for the same field shares one flag — username non-empty, password
non-empty, TOTP capability — queried from the selected entry. -/
theorem updateActionMenu_button_and_flags (ui : ActionMenuUi) (m : AutoTypeMatch) :
    (m.first = none → updateActionMenu ui m = { ui with actionEnabled := false }) ∧
    (∀ e, m.first = some e →
      (updateActionMenu ui m).actionEnabled = true ∧
      (updateActionMenu ui m).typeUsernameEnabled
        = (updateActionMenu ui m).copyUsernameEnabled ∧
      (updateActionMenu ui m).typePasswordEnabled
        = (updateActionMenu ui m).copyPasswordEnabled ∧
      (updateActionMenu ui m).typeTotpEnabled
        = (updateActionMenu ui m).copyTotpEnabled ∧
      ((updateActionMenu ui m).typeUsernameEnabled = true ↔ e.username ≠ "") ∧
      ((updateActionMenu ui m).typePasswordEnabled = true ↔ e.password ≠ "") ∧
      (updateActionMenu ui m).typeTotpEnabled = e.hasTotp) := by
  constructor
  · intro h
    unfold updateActionMenu
    rw [h]
  · intro e he
    unfold updateActionMenu
    rw [he]
    simp

/-- Witness for C2: a selected match whose entry has a username, no
password and no TOTP capability. -/
theorem updateActionMenu_button_and_flags_witness :
    (AutoTypeMatch.mk (some entryBob) "{USERNAME}{ENTER}").first = some entryBob ∧
    ((updateActionMenu buildActionMenu ⟨some entryBob, "{USERNAME}{ENTER}"⟩).actionEnabled = true ∧
      (updateActionMenu buildActionMenu ⟨some entryBob, "{USERNAME}{ENTER}"⟩).typeUsernameEnabled
        = (updateActionMenu buildActionMenu ⟨some entryBob, "{USERNAME}{ENTER}"⟩).copyUsernameEnabled ∧
      (updateActionMenu buildActionMenu ⟨some entryBob, "{USERNAME}{ENTER}"⟩).typePasswordEnabled
        = (updateActionMenu buildActionMenu ⟨some entryBob, "{USERNAME}{ENTER}"⟩).copyPasswordEnabled ∧
      (updateActionMenu buildActionMenu ⟨some entryBob, "{USERNAME}{ENTER}"⟩).typeTotpEnabled
        = (updateActionMenu buildActionMenu ⟨some entryBob, "{USERNAME}{ENTER}"⟩).copyTotpEnabled ∧
      ((updateActionMenu buildActionMenu ⟨some entryBob, "{USERNAME}{ENTER}"⟩).typeUsernameEnabled = true
        ↔ entryBob.username ≠ "") ∧
      ((updateActionMenu buildActionMenu ⟨some entryBob, "{USERNAME}{ENTER}"⟩).typePasswordEnabled = true
        ↔ entryBob.password ≠ "") ∧
      (updateActionMenu buildActionMenu ⟨some entryBob, "{USERNAME}{ENTER}"⟩).typeTotpEnabled
        = entryBob.hasTotp) :=
  ⟨rfl, (updateActionMenu_button_and_flags buildActionMenu
    ⟨some entryBob, "{USERNAME}{ENTER}"⟩).2 entryBob rfl⟩

/-- C5: at session start the mode is Filter (filter radio checked) exactly
when the initial candidate set is non-empty, and Search exactly when it is
empty. -/
theorem initial_mode_filter_iff_nonempty (f : String → List Entry → List Entry)
    (pred : String → AutoTypeMatch → Bool)
    (matchList : List AutoTypeMatch) (dbs : List Database) :
    ((openSession f pred matchList dbs).filterRadio = true ↔ matchList ≠ []) ∧
    ((openSession f pred matchList dbs).filterRadio = false ↔ matchList = []) := by
  unfold openSession setMatches searchRadioToggledOn filterRadioToggledOn
  cases matchList <;> simp [performSearch]

/-- C9: `moveSelectionUp` / `moveSelectionDown` are no-ops with no current
selection or on an empty displayed set; with row `i` selected in a
displayed set of length `len` (with `i < len`) they move the selection by
exactly one position, are no-ops at the first resp. last row (no wrapping),
never change the displayed set, and leave the index inside `[0, len-1]`. -/
theorem moveSelection_stays_in_bounds (v : MatchView) :
    (v.currentRow = none →
      MatchView.moveSelectionUp v = v ∧ MatchView.moveSelectionDown v = v) ∧
    (v.displayed = [] →
      MatchView.moveSelectionUp v = v ∧ MatchView.moveSelectionDown v = v) ∧
    (∀ i, v.currentRow = some i → i < v.displayed.length →
      (MatchView.moveSelectionUp v).displayed = v.displayed ∧
      (MatchView.moveSelectionDown v).displayed = v.displayed ∧
      (MatchView.moveSelectionUp v).currentRow = some (if i = 0 then 0 else i - 1) ∧
      (MatchView.moveSelectionDown v).currentRow =
        some (if i + 1 < v.displayed.length then i + 1 else i) ∧
      (∀ j, (MatchView.moveSelectionUp v).currentRow = some j →
        j < v.displayed.length) ∧
      (∀ j, (MatchView.moveSelectionDown v).currentRow = some j →
        j < v.displayed.length)) := by
  refine ⟨?_, ?_, ?_⟩
  · intro h
    constructor <;>
      simp only [MatchView.moveSelectionUp, MatchView.moveSelectionDown, h]
  · intro h
    cases hr : v.currentRow with
    | none =>
      constructor <;>
        simp only [MatchView.moveSelectionUp, MatchView.moveSelectionDown, hr]
    | some i =>
      constructor
      · simp only [MatchView.moveSelectionUp, hr]
        rw [if_neg (by simp only [h, List.length_nil]; omega)]
      · simp only [MatchView.moveSelectionDown, hr]
        rw [if_neg (by simp only [h, List.length_nil]; omega)]
  · intro i hr hlen
    refine ⟨?_, ?_, ?_, ?_, ?_, ?_⟩
    · simp only [MatchView.moveSelectionUp, hr]
      split_ifs <;> rfl
    · simp only [MatchView.moveSelectionDown, hr]
      split_ifs <;> rfl
    · simp only [MatchView.moveSelectionUp, hr]
      by_cases hi : i = 0
      · subst hi
        rw [if_neg (by omega), if_pos rfl, hr]
      · rw [if_pos (by constructor <;> omega), if_neg hi]
    · simp only [MatchView.moveSelectionDown, hr]
      by_cases hi : i + 1 < v.displayed.length
      · rw [if_pos (by constructor <;> omega), if_pos hi]
      · rw [if_neg (by omega), if_neg hi, hr]
    · simp only [MatchView.moveSelectionUp, hr]
      intro j hj
      by_cases hc : (0 ≤ (i : Int) - 1 ∧ (i : Int) - 1 < v.displayed.length)
      · rw [if_pos hc] at hj
        simp only [Option.some.injEq] at hj
        omega
      · rw [if_neg hc, hr] at hj
        simp only [Option.some.injEq] at hj
        omega
    · simp only [MatchView.moveSelectionDown, hr]
      intro j hj
      by_cases hc : (0 ≤ (i : Int) + 1 ∧ (i : Int) + 1 < v.displayed.length)
      · rw [if_pos hc] at hj
        simp only [Option.some.injEq] at hj
        omega
      · rw [if_neg hc, hr] at hj
        simp only [Option.some.injEq] at hj
        omega

/-- Witness for C9: a view with two rows, the second selected. -/
theorem moveSelection_stays_in_bounds_witness :
    sampleView.currentRow = some 1 ∧ 1 < sampleView.displayed.length ∧
    ((MatchView.moveSelectionUp sampleView).displayed = sampleView.displayed ∧
     (MatchView.moveSelectionDown sampleView).displayed = sampleView.displayed ∧
     (MatchView.moveSelectionUp sampleView).currentRow = some (if 1 = 0 then 0 else 1 - 1) ∧
     (MatchView.moveSelectionDown sampleView).currentRow =
       some (if 1 + 1 < sampleView.displayed.length then 1 + 1 else 1) ∧
     (∀ j, (MatchView.moveSelectionUp sampleView).currentRow = some j →
       j < sampleView.displayed.length) ∧
     (∀ j, (MatchView.moveSelectionDown sampleView).currentRow = some j →
       j < sampleView.displayed.length)) :=
  ⟨rfl, by decide,
    (moveSelection_stays_in_bounds sampleView).2.2 1 rfl (by decide)⟩

/-- C10: each copy-action handler dereferences the selected match's entry
with no null guard: it succeeds exactly when a match is selected, and for a
state with no selection its error branch (`none`) is reached for all three
fields; the context-menu handler, by contrast, checks the entry and never
faults. -/
theorem copy_actions_unguarded_null_deref (s : DialogState) :
    ((copyUsernameAction s).isSome ↔ (MatchView.currentMatch s.view).first.isSome) ∧
    ((copyPasswordAction s).isSome ↔ (MatchView.currentMatch s.view).first.isSome) ∧
    ((copyTotpAction s).isSome ↔ (MatchView.currentMatch s.view).first.isSome) ∧
    ((MatchView.currentMatch s.view).first = none →
      copyUsernameAction s = none ∧ copyPasswordAction s = none ∧
      copyTotpAction s = none) ∧
    (contextMenuRequested s).isSome = true := by
  unfold copyUsernameAction copyPasswordAction copyTotpAction contextMenuRequested
  cases h : (MatchView.currentMatch s.view).first <;> simp [h]

/-- Witness for C10: the error branch of all three copy handlers is reached
at a concrete no-selection session state. -/
theorem copy_actions_unguarded_null_deref_witness :
    (MatchView.currentMatch sampleEmptyDialog.view).first = none ∧
    (copyUsernameAction sampleEmptyDialog = none ∧
     copyPasswordAction sampleEmptyDialog = none ∧
     copyTotpAction sampleEmptyDialog = none) :=
  ⟨rfl, (copy_actions_unguarded_null_deref sampleEmptyDialog).2.2.2.1 rfl⟩

/-- C6: checking the filter radio (from Search mode) restores the view's
list to the original candidate set and immediately applies the current
query text as a filter; checking the search radio (from Filter mode)
immediately dispatches a full re-search with the current query text.  Both
recomputations happen on the mode-switch event itself — the debounce timer
is neither consumed nor armed. -/
theorem mode_switch_recomputes_immediately
    (f : String → List Entry → List Entry)
    (pred : String → AutoTypeMatch → Bool) (s : DialogState)
    (hopen : s.result = none) :
    (s.filterRadio = false →
      ((step f pred s Event.filterRadioClicked).view.baseList = s.m_matches ∧
       (step f pred s Event.filterRadioClicked).view.displayed =
         (if s.searchText = "" then s.m_matches
          else s.m_matches.filter (pred s.searchText)) ∧
       (step f pred s Event.filterRadioClicked).timerPending = s.timerPending)) ∧
    (s.filterRadio = true →
      ((step f pred s Event.searchRadioClicked).view.displayed =
         (if s.searchText = "" then []
          else performSearchMatches f s.searchText s.dbs) ∧
       (step f pred s Event.searchRadioClicked).timerPending = s.timerPending)) := by
  constructor
  · intro h
    simp [step, hopen, handle, h, filterRadioToggledOn, performSearch,
      MatchView.filterList, MatchView.setMatchList]
  · intro h
    simp [step, hopen, handle, h, searchRadioToggledOn, performSearch,
      MatchView.setMatchList]
    split <;> simp

/-- Witness for C6: switching to Filter in a Search-mode session and
switching to Search in a Filter-mode session. -/
theorem mode_switch_recomputes_immediately_witness :
    (sampleEmptyDialog.result = none ∧ sampleEmptyDialog.filterRadio = false ∧
      ((step sampleSearch sampleFilter sampleEmptyDialog
          Event.filterRadioClicked).view.baseList = sampleEmptyDialog.m_matches ∧
       (step sampleSearch sampleFilter sampleEmptyDialog
          Event.filterRadioClicked).view.displayed =
         (if sampleEmptyDialog.searchText = "" then sampleEmptyDialog.m_matches
          else sampleEmptyDialog.m_matches.filter
            (sampleFilter sampleEmptyDialog.searchText)) ∧
       (step sampleSearch sampleFilter sampleEmptyDialog
          Event.filterRadioClicked).timerPending = sampleEmptyDialog.timerPending)) ∧
    (sampleOpenDialog.result = none ∧ sampleOpenDialog.filterRadio = true ∧
      ((step sampleSearch sampleFilter sampleOpenDialog
          Event.searchRadioClicked).view.displayed =
         (if sampleOpenDialog.searchText = "" then []
          else performSearchMatches sampleSearch sampleOpenDialog.searchText
            sampleOpenDialog.dbs) ∧
       (step sampleSearch sampleFilter sampleOpenDialog
          Event.searchRadioClicked).timerPending = sampleOpenDialog.timerPending)) :=
  ⟨⟨rfl, rfl, (mode_switch_recomputes_immediately sampleSearch sampleFilter
      sampleEmptyDialog rfl).1 rfl⟩,
   ⟨rfl, rfl, (mode_switch_recomputes_immediately sampleSearch sampleFilter
      sampleOpenDialog rfl).2 rfl⟩⟩

/-- C7: Escape in the search box of an open session clears the query text
and leaves the session open when the text is non-empty, and closes the
session as Cancelled when the text is empty. -/
theorem escape_clears_or_cancels (f : String → List Entry → List Entry)
    (pred : String → AutoTypeMatch → Bool) (s : DialogState)
    (hopen : s.result = none) :
    (s.searchText ≠ "" →
      (step f pred s Event.keyEscape).result = none ∧
      (step f pred s Event.keyEscape).searchText = "") ∧
    (s.searchText = "" →
      (step f pred s Event.keyEscape).result = some Outcome.cancelled) := by
  constructor
  · intro h
    simp [step, hopen, handle, h]
  · intro h
    simp [step, hopen, handle, h, rejectDialog, closeEventHandler]
    split <;> rfl

/-- Witness for C7: Escape with query text `"abc"` stays open and clears;
Escape with query text `""` cancels. -/
theorem escape_clears_or_cancels_witness :
    (sampleOpenDialog.result = none ∧ sampleOpenDialog.searchText ≠ "" ∧
      ((step sampleSearch sampleFilter sampleOpenDialog Event.keyEscape).result = none ∧
       (step sampleSearch sampleFilter sampleOpenDialog Event.keyEscape).searchText = "")) ∧
    (sampleEmptyDialog.result = none ∧ sampleEmptyDialog.searchText = "" ∧
      (step sampleSearch sampleFilter sampleEmptyDialog Event.keyEscape).result =
        some Outcome.cancelled) :=
  ⟨⟨rfl, by decide, (escape_clears_or_cancels sampleSearch sampleFilter
      sampleOpenDialog rfl).1 (by decide)⟩,
   ⟨rfl, rfl, (escape_clears_or_cancels sampleSearch sampleFilter
      sampleEmptyDialog rfl).2 rfl⟩⟩

/-- C8: with a match selected, each copy-action delivers the exact
corresponding field string of the selected entry to the clipboard and
closes the session as Cancelled — never Accepted, and no `matchActivated`
emission is added. -/
theorem copy_action_delivers_and_cancels (f : String → List Entry → List Entry)
    (pred : String → AutoTypeMatch → Bool) (s : DialogState) (e : Entry)
    (hopen : s.result = none)
    (hsel : (MatchView.currentMatch s.view).first = some e) :
    ((step f pred s Event.copyUsernameTriggered).clipboard = some e.username ∧
     (step f pred s Event.copyUsernameTriggered).result = some Outcome.cancelled ∧
     (step f pred s Event.copyUsernameTriggered).activatedEvents = s.activatedEvents) ∧
    ((step f pred s Event.copyPasswordTriggered).clipboard = some e.password ∧
     (step f pred s Event.copyPasswordTriggered).result = some Outcome.cancelled ∧
     (step f pred s Event.copyPasswordTriggered).activatedEvents = s.activatedEvents) ∧
    ((step f pred s Event.copyTotpTriggered).clipboard = some e.totp ∧
     (step f pred s Event.copyTotpTriggered).result = some Outcome.cancelled ∧
     (step f pred s Event.copyTotpTriggered).activatedEvents = s.activatedEvents) := by
  refine ⟨?_, ?_, ?_⟩ <;>
    · simp [step, hopen, handle, copyUsernameAction, copyPasswordAction,
        copyTotpAction, hsel, rejectDialog, closeEventHandler]
      split <;> simp

/-- Witness for C8: copying from the selected `entryBob` match. -/
theorem copy_action_delivers_and_cancels_witness :
    (sampleOpenDialog.result = none ∧
     (MatchView.currentMatch sampleOpenDialog.view).first = some entryBob) ∧
    (((step sampleSearch sampleFilter sampleOpenDialog
        Event.copyUsernameTriggered).clipboard = some entryBob.username ∧
      (step sampleSearch sampleFilter sampleOpenDialog
        Event.copyUsernameTriggered).result = some Outcome.cancelled ∧
      (step sampleSearch sampleFilter sampleOpenDialog
        Event.copyUsernameTriggered).activatedEvents = sampleOpenDialog.activatedEvents) ∧
     ((step sampleSearch sampleFilter sampleOpenDialog
        Event.copyPasswordTriggered).clipboard = some entryBob.password ∧
      (step sampleSearch sampleFilter sampleOpenDialog
        Event.copyPasswordTriggered).result = some Outcome.cancelled ∧
      (step sampleSearch sampleFilter sampleOpenDialog
        Event.copyPasswordTriggered).activatedEvents = sampleOpenDialog.activatedEvents) ∧
     ((step sampleSearch sampleFilter sampleOpenDialog
        Event.copyTotpTriggered).clipboard = some entryBob.totp ∧
      (step sampleSearch sampleFilter sampleOpenDialog
        Event.copyTotpTriggered).result = some Outcome.cancelled ∧
      (step sampleSearch sampleFilter sampleOpenDialog
        Event.copyTotpTriggered).activatedEvents = sampleOpenDialog.activatedEvents)) :=
  ⟨⟨rfl, rfl⟩, copy_action_delivers_and_cancels sampleSearch sampleFilter
    sampleOpenDialog entryBob rfl rfl⟩

/-!
## Emission bookkeeping for C3
-/

/-- The session invariant tying the emission counters to the terminal
result: `m_accepted` is set exactly on an accepted result, `matchActivated`
has been emitted exactly once iff the result is Accepted, and `rejected`
exactly once iff the result is Cancelled. -/
def EmissionInv (s : DialogState) : Prop :=
  (s.accepted = true ↔ s.result = some Outcome.accepted) ∧
  s.activatedEvents.length = (if s.result = some Outcome.accepted then 1 else 0) ∧
  s.rejectedCount = (if s.result = some Outcome.cancelled then 1 else 0)

theorem emissionInv_submit_close (s : DialogState) (m : AutoTypeMatch)
    (hact : s.activatedEvents.length = 0) (hrej : s.rejectedCount = 0) :
    EmissionInv (closeEventHandler (submitAutoTypeMatch s m)) := by
  unfold EmissionInv closeEventHandler submitAutoTypeMatch acceptDialog
  simp [hact, hrej]

theorem emissionInv_reject_close (s : DialogState) (hacc : s.accepted = false)
    (hact : s.activatedEvents.length = 0) (hrej : s.rejectedCount = 0) :
    EmissionInv (closeEventHandler (rejectDialog s)) := by
  unfold EmissionInv closeEventHandler rejectDialog
  simp [hacc, hact, hrej]

theorem emissionInv_window_close (s : DialogState) (hacc : s.accepted = false)
    (hact : s.activatedEvents.length = 0) (hrej : s.rejectedCount = 0) :
    EmissionInv (rejectDialog (closeEventHandler s)) := by
  unfold EmissionInv closeEventHandler rejectDialog
  simp [hacc, hact, hrej]

/-- Every event step preserves the emission invariant. -/
theorem emissionInv_step (f : String → List Entry → List Entry)
    (pred : String → AutoTypeMatch → Bool) (s : DialogState) (ev : Event)
    (h : EmissionInv s) : EmissionInv (step f pred s ev) := by
  obtain ⟨h1, h2, h3⟩ := h
  by_cases hres : s.result = none
  · have hacc : s.accepted = false := by
      by_contra hb
      rw [Bool.not_eq_false] at hb
      have := h1.mp hb
      simp [hres] at this
    have hact : s.activatedEvents.length = 0 := by simpa [hres] using h2
    have hrej : s.rejectedCount = 0 := by simpa [hres] using h3
    cases ev with
    | textChanged t =>
      simp only [step, handle, hres, Option.isSome_none, Bool.false_eq_true,
        if_false, reduceCtorEq, reduceIte]
      refine ⟨?_, ?_, ?_⟩ <;> simp [hacc, hact, hrej]
    | timerFire =>
      by_cases ht : s.timerPending = true <;>
        simp only [step, handle, hres, ht, Option.isSome_none, Bool.false_eq_true,
          if_false, if_true, reduceCtorEq, reduceIte, performSearch] <;>
        refine ⟨?_, ?_, ?_⟩ <;> simp [hres, hacc, hact, hrej]
    | returnPressed =>
      simp only [step, handle, hres, Option.isSome_none, Bool.false_eq_true,
        if_false, reduceCtorEq, reduceIte, activateCurrentMatch]
      exact emissionInv_submit_close s _ hact hrej
    | actionClicked =>
      simp only [step, handle, hres, Option.isSome_none, Bool.false_eq_true,
        if_false, reduceCtorEq, reduceIte, activateCurrentMatch]
      exact emissionInv_submit_close s _ hact hrej
    | viewActivated i =>
      by_cases hi : i < s.view.displayed.length <;>
        simp only [step, handle, hres, hi, Option.isSome_none, Bool.false_eq_true,
          if_false, if_true, reduceCtorEq, reduceIte]
      · exact emissionInv_submit_close s _ hact hrej
      · exact ⟨h1, h2, h3⟩
    | keyUp =>
      simp only [step, handle, hres, Option.isSome_none, Bool.false_eq_true,
        if_false, reduceCtorEq, reduceIte]
      refine ⟨?_, ?_, ?_⟩ <;> simp [hacc, hact, hrej]
    | keyDown =>
      simp only [step, handle, hres, Option.isSome_none, Bool.false_eq_true,
        if_false, reduceCtorEq, reduceIte]
      refine ⟨?_, ?_, ?_⟩ <;> simp [hacc, hact, hrej]
    | keyEscape =>
      by_cases he : s.searchText = "" <;>
        simp only [step, handle, hres, he, Option.isSome_none, Bool.false_eq_true,
          if_false, if_true, reduceCtorEq, reduceIte]
      · exact emissionInv_reject_close s hacc hact hrej
      · refine ⟨?_, ?_, ?_⟩ <;> simp [hacc, hact, hrej]
    | cancelClicked =>
      simp only [step, handle, hres, Option.isSome_none, Bool.false_eq_true,
        if_false, reduceCtorEq, reduceIte]
      exact emissionInv_reject_close s hacc hact hrej
    | filterRadioClicked =>
      by_cases hfr : s.filterRadio = true <;>
        simp only [step, handle, hres, hfr, Option.isSome_none, Bool.false_eq_true,
          if_false, if_true, reduceCtorEq, reduceIte, filterRadioToggledOn,
          performSearch]
      · exact ⟨h1, h2, h3⟩
      · refine ⟨?_, ?_, ?_⟩ <;> simp [hacc, hact, hrej]
    | searchRadioClicked =>
      by_cases hfr : s.filterRadio = true <;>
        simp only [step, handle, hres, hfr, Option.isSome_none, Bool.false_eq_true,
          if_false, if_true, reduceCtorEq, reduceIte, searchRadioToggledOn,
          performSearch]
      · refine ⟨?_, ?_, ?_⟩ <;> simp [hacc, hact, hrej]
      · exact ⟨h1, h2, h3⟩
    | typeUsernameTriggered =>
      simp only [step, handle, hres, Option.isSome_none, Bool.false_eq_true,
        if_false, reduceCtorEq, reduceIte]
      exact emissionInv_submit_close s _ hact hrej
    | typePasswordTriggered =>
      simp only [step, handle, hres, Option.isSome_none, Bool.false_eq_true,
        if_false, reduceCtorEq, reduceIte]
      exact emissionInv_submit_close s _ hact hrej
    | typeTotpTriggered =>
      simp only [step, handle, hres, Option.isSome_none, Bool.false_eq_true,
        if_false, reduceCtorEq, reduceIte]
      exact emissionInv_submit_close s _ hact hrej
    | copyUsernameTriggered =>
      cases hm : (MatchView.currentMatch s.view).first <;>
        simp only [step, handle, hres, Option.isSome_none, Bool.false_eq_true,
          if_false, reduceCtorEq, reduceIte, copyUsernameAction, hm, Option.getD]
      · exact ⟨h1, h2, h3⟩
      · exact emissionInv_reject_close _ hacc hact hrej
    | copyPasswordTriggered =>
      cases hm : (MatchView.currentMatch s.view).first <;>
        simp only [step, handle, hres, Option.isSome_none, Bool.false_eq_true,
          if_false, reduceCtorEq, reduceIte, copyPasswordAction, hm, Option.getD]
      · exact ⟨h1, h2, h3⟩
      · exact emissionInv_reject_close _ hacc hact hrej
    | copyTotpTriggered =>
      cases hm : (MatchView.currentMatch s.view).first <;>
        simp only [step, handle, hres, Option.isSome_none, Bool.false_eq_true,
          if_false, reduceCtorEq, reduceIte, copyTotpAction, hm, Option.getD]
      · exact ⟨h1, h2, h3⟩
      · exact emissionInv_reject_close _ hacc hact hrej
    | windowClose =>
      simp only [step, hres, Option.isSome_none, Bool.false_eq_true, if_false,
        reduceCtorEq, reduceIte, if_true]
      exact emissionInv_window_close s hacc hact hrej
  · have hsome : s.result.isSome := Option.ne_none_iff_isSome.mp hres
    simp only [step, hsome, if_true, reduceIte]
    exact ⟨h1, h2, h3⟩

/-- A freshly opened session satisfies the emission invariant. -/
theorem emissionInv_openSession (f : String → List Entry → List Entry)
    (pred : String → AutoTypeMatch → Bool)
    (matchList : List AutoTypeMatch) (dbs : List Database) :
    EmissionInv (openSession f pred matchList dbs) := by
  unfold openSession setMatches searchRadioToggledOn filterRadioToggledOn EmissionInv
  cases matchList <;> simp [performSearch, initialDialog]

/-- The emission invariant holds along every event trace. -/
theorem emissionInv_run (f : String → List Entry → List Entry)
    (pred : String → AutoTypeMatch → Bool) (s : DialogState) (es : List Event)
    (h : EmissionInv s) : EmissionInv (run f pred s es) := by
  induction es generalizing s with
  | nil => exact h
  | cons e es ih => exact ih _ (emissionInv_step f pred s e h)

/-- C3: along every complete session trace, `matchActivated` has been
emitted exactly once iff the session ended `Closed(Accepted)`, the dialog's
`rejected` emission has happened exactly once iff it ended
`Closed(Cancelled)` (including a window close without prior acceptance),
and never both in one session. -/
theorem matchActivated_rejected_exactly_once
    (f : String → List Entry → List Entry)
    (pred : String → AutoTypeMatch → Bool)
    (matchList : List AutoTypeMatch) (dbs : List Database) (es : List Event) :
    ((run f pred (openSession f pred matchList dbs) es).result = some Outcome.accepted ↔
      (run f pred (openSession f pred matchList dbs) es).activatedEvents.length = 1) ∧
    ((run f pred (openSession f pred matchList dbs) es).result = some Outcome.cancelled ↔
      (run f pred (openSession f pred matchList dbs) es).rejectedCount = 1) ∧
    ¬ ((run f pred (openSession f pred matchList dbs) es).activatedEvents.length = 1 ∧
       (run f pred (openSession f pred matchList dbs) es).rejectedCount = 1) := by
  obtain ⟨h1, h2, h3⟩ :=
    emissionInv_run f pred (openSession f pred matchList dbs) es
      (emissionInv_openSession f pred matchList dbs)
  set t := run f pred (openSession f pred matchList dbs) es
  cases ht : t.result with
  | none =>
    rw [ht] at h2 h3
    simp only [reduceCtorEq, reduceIte, if_false] at h2 h3
    refine ⟨?_, ?_, ?_⟩
    · simp only [reduceCtorEq, false_iff]
      omega
    · simp only [reduceCtorEq, false_iff]
      omega
    · omega
  | some r =>
    cases r with
    | accepted =>
      rw [ht] at h2 h3
      simp only [Option.some.injEq, reduceCtorEq, reduceIte, if_false, if_true] at h2 h3
      refine ⟨?_, ?_, ?_⟩
      · simp only [true_iff]
        omega
      · simp only [Option.some.injEq, reduceCtorEq, false_iff]
        omega
      · omega
    | cancelled =>
      rw [ht] at h2 h3
      simp only [Option.some.injEq, reduceCtorEq, reduceIte, if_false, if_true] at h2 h3
      refine ⟨?_, ?_, ?_⟩
      · simp only [Option.some.injEq, reduceCtorEq, false_iff]
        omega
      · simp only [true_iff]
        omega
      · omega

/-!
## MatchCollector equivalence for C4
-/

theorem specEmit_cons (entry : Entry) (emitted : List String) (a : String)
    (rest : List String) :
    specEmit entry emitted (a :: rest) =
      if a ≠ "" ∧ a ∉ emitted then
        ⟨some entry, a⟩ :: specEmit entry (a :: emitted) rest
      else specEmit entry emitted rest := rfl

/-- `specEmit` only depends on the membership of the emitted set. -/
theorem specEmit_congr (entry : Entry) (l : List String)
    (em1 em2 : List String) (h : ∀ x, x ∈ em1 ↔ x ∈ em2) :
    specEmit entry em1 l = specEmit entry em2 l := by
  induction l generalizing em1 em2 with
  | nil => rfl
  | cons a rest ih =>
    rw [specEmit_cons, specEmit_cons]
    by_cases ha : a ≠ "" ∧ a ∉ em1
    · rw [if_pos ha, if_pos ⟨ha.1, fun hx => ha.2 ((h a).mpr hx)⟩]
      rw [ih (a :: em1) (a :: em2) (by intro x; simp [h x])]
    · rw [if_neg ha, if_neg (by
        intro hc
        exact ha ⟨hc.1, fun hx => hc.2 ((h a).mp hx)⟩)]
      exact ih em1 em2 h

/-- The `sequences`-set loop of the source equals the spec's
"not already emitted, first-seen-wins" emission. -/
theorem assoc_fold_spec (entry : Entry) (assocs : List String)
    (acc : List AutoTypeMatch) (seen : List String) :
    (assocs.foldl (assocLoopBody entry) (acc, seen)).1 =
      acc ++ specEmit entry seen assocs := by
  induction assocs generalizing acc seen with
  | nil => simp [specEmit]
  | cons a rest ih =>
    rw [List.foldl_cons, specEmit_cons]
    by_cases hc : ¬ (seen.contains a) = true ∧ ¬ a = ""
    · rw [show assocLoopBody entry (acc, seen) a
          = (acc ++ [⟨some entry, a⟩], seen ++ [a]) from by
        unfold assocLoopBody; rw [if_pos hc]]
      rw [ih]
      rw [if_pos ⟨hc.2, fun hx => hc.1 (List.elem_iff.mpr hx)⟩]
      rw [specEmit_congr entry rest (seen ++ [a]) (a :: seen)
        (by intro x; simp; tauto)]
      simp
    · rw [show assocLoopBody entry (acc, seen) a = (acc, seen) from by
        unfold assocLoopBody; rw [if_neg hc]]
      rw [ih]
      rw [if_neg (by
        intro hx
        exact hc ⟨fun hm => hx.2 (List.elem_iff.mp hm), hx.1⟩)]

/-- Per entry, the source's loop appends exactly the spec's matches. -/
theorem entryLoopBody_spec (acc : List AutoTypeMatch) (entry : Entry) :
    entryLoopBody acc entry = acc ++ specEntryMatches entry := by
  unfold entryLoopBody specEntryMatches
  simp only []
  by_cases hd : ¬ entry.effectiveAutoTypeSequence = ""
  · rw [if_pos hd, if_pos hd, assoc_fold_spec]
    simp
  · rw [if_neg hd, if_neg hd, assoc_fold_spec]

theorem entries_fold_spec (entries : List Entry) (acc : List AutoTypeMatch) :
    entries.foldl entryLoopBody acc = acc ++ entries.flatMap specEntryMatches := by
  induction entries generalizing acc with
  | nil => simp
  | cons e rest ih =>
    rw [List.foldl_cons, ih, entryLoopBody_spec]
    simp

/-- The full Search-mode collection equals the spec-worded per-entry
emission, store by store and entry by entry. -/
theorem performSearchMatches_spec (f : String → List Entry → List Entry)
    (text : String) (dbs : List Database) :
    performSearchMatches f text dbs =
      dbs.flatMap (fun db => (f text db.rootGroup).flatMap specEntryMatches) := by
  unfold performSearchMatches
  suffices h : ∀ (l : List Database) (acc : List AutoTypeMatch),
      l.foldl (fun m db => (f text db.rootGroup).foldl entryLoopBody m) acc =
        acc ++ l.flatMap (fun db => (f text db.rootGroup).flatMap specEntryMatches) by
    simpa using h dbs []
  intro l
  induction l with
  | nil => simp
  | cons d rest ih =>
    intro acc
    rw [List.foldl_cons, ih, entries_fold_spec]
    simp

/-- Every emitted match has a non-empty sequence not yet in the emitted
set, points at the entry, and the emitted sequences are pairwise
distinct. -/
theorem specEmit_props (entry : Entry) (l : List String) (emitted : List String) :
    (∀ m ∈ specEmit entry emitted l,
      m.second ≠ "" ∧ m.second ∉ emitted ∧ m.first = some entry) ∧
    ((specEmit entry emitted l).map AutoTypeMatch.second).Nodup := by
  induction l generalizing emitted with
  | nil => simp [specEmit]
  | cons a rest ih =>
    rw [specEmit_cons]
    by_cases ha : a ≠ "" ∧ a ∉ emitted
    · rw [if_pos ha]
      obtain ⟨ihm, ihn⟩ := ih (a :: emitted)
      constructor
      · intro m hm
        rcases List.mem_cons.mp hm with hm | hm
        · subst hm
          exact ⟨ha.1, ha.2, rfl⟩
        · obtain ⟨hne, hnm, hfst⟩ := ihm m hm
          exact ⟨hne, fun hx => hnm (List.mem_cons_of_mem a hx), hfst⟩
      · simp only [List.map_cons, List.nodup_cons]
        constructor
        · intro hx
          rcases List.mem_map.mp hx with ⟨m, hm, hsec⟩
          exact (ihm m hm).2.1 (hsec ▸ List.mem_cons_self a emitted)
        · exact ihn
    · rw [if_neg ha]
      obtain ⟨ihm, ihn⟩ := ih emitted
      exact ⟨ihm, ihn⟩

theorem specEntryMatches_props (entry : Entry) :
    (∀ m ∈ specEntryMatches entry, m.second ≠ "" ∧ m.first = some entry) ∧
    ((specEntryMatches entry).map AutoTypeMatch.second).Nodup := by
  unfold specEntryMatches
  by_cases hd : entry.effectiveAutoTypeSequence ≠ ""
  · rw [if_pos hd]
    obtain ⟨hm, hn⟩ := specEmit_props entry entry.autoTypeAssociations
      [entry.effectiveAutoTypeSequence]
    constructor
    · intro m hmem
      rcases List.mem_cons.mp hmem with h | h
      · subst h
        exact ⟨hd, rfl⟩
      · exact ⟨(hm m h).1, (hm m h).2.2⟩
    · simp only [List.map_cons, List.nodup_cons]
      constructor
      · intro hx
        rcases List.mem_map.mp hx with ⟨m, hmem, hsec⟩
        exact (hm m hmem).2.1 (hsec ▸ List.mem_singleton_self _)
      · exact hn
  · rw [if_neg hd]
    obtain ⟨hm, hn⟩ := specEmit_props entry entry.autoTypeAssociations []
    exact ⟨fun m h => ⟨(hm m h).1, (hm m h).2.2⟩, hn⟩

theorem specEmit_all_empty (entry : Entry) (l : List String)
    (emitted : List String) (h : ∀ a ∈ l, a = "") :
    specEmit entry emitted l = [] := by
  induction l generalizing emitted with
  | nil => rfl
  | cons a rest ih =>
    rw [specEmit_cons, if_neg (by
      intro hx
      exact hx.1 (h a (List.mem_cons_self a rest)))]
    exact ih emitted (fun x hx => h x (List.mem_cons_of_mem a hx))

theorem specEntryMatches_all_empty (entry : Entry)
    (hd : entry.effectiveAutoTypeSequence = "")
    (ha : ∀ a ∈ entry.autoTypeAssociations, a = "") :
    specEntryMatches entry = [] := by
  unfold specEntryMatches
  rw [if_neg (by simpa using hd)]
  exact specEmit_all_empty entry _ [] ha

/-- C4: a Search-mode dispatch with empty query text displays the empty
candidate set; with non-empty text it displays, per store and per returned
entry, the spec's emission (default sequence first if non-empty, then each
association sequence that is non-empty and not already emitted for that
entry, first-seen-wins by exact string equality).  Emitted sequences per
entry are non-empty and pairwise distinct, and an entry all of whose
sequences are empty contributes no match. -/
theorem performSearch_search_mode_collects
    (f : String → List Entry → List Entry)
    (pred : String → AutoTypeMatch → Bool) (s : DialogState)
    (hmode : s.filterRadio = false) :
    (s.searchText = "" → (performSearch f pred s).view.displayed = []) ∧
    (s.searchText ≠ "" → (performSearch f pred s).view.displayed =
      s.dbs.flatMap (fun db =>
        (f s.searchText db.rootGroup).flatMap specEntryMatches)) ∧
    (∀ entry, ∀ m ∈ specEntryMatches entry,
      m.second ≠ "" ∧ m.first = some entry) ∧
    (∀ entry, ((specEntryMatches entry).map AutoTypeMatch.second).Nodup) ∧
    (∀ entry, entry.effectiveAutoTypeSequence = "" →
      (∀ a ∈ entry.autoTypeAssociations, a = "") →
      ∀ acc, entryLoopBody acc entry = acc) := by
  refine ⟨?_, ?_, ?_, ?_, ?_⟩
  · intro h
    simp [performSearch, hmode, h, MatchView.setMatchList]
  · intro h
    simp [performSearch, hmode, h, MatchView.setMatchList,
      performSearchMatches_spec]
  · exact fun entry => (specEntryMatches_props entry).1
  · exact fun entry => (specEntryMatches_props entry).2
  · intro entry hd ha acc
    rw [entryLoopBody_spec, specEntryMatches_all_empty entry hd ha,
      List.append_nil]

/-- A sample Search-mode session over one store with one entry. -/
def sampleSearchDialog : DialogState :=
  { m_matches := []
    dbs := [⟨[entryBob]⟩]
    view := { baseList := [], displayed := [], currentRow := none }
    searchText := "ma"
    filterRadio := false
    accepted := false
    timerPending := false
    result := none
    activatedEvents := []
    rejectedCount := 0
    clipboard := none }

/-- Witness for C4: a non-empty query over one store with one entry. -/
theorem performSearch_search_mode_collects_witness :
    sampleSearchDialog.filterRadio = false ∧
    sampleSearchDialog.searchText ≠ "" ∧
    (performSearch sampleSearch sampleFilter sampleSearchDialog).view.displayed =
      sampleSearchDialog.dbs.flatMap (fun db =>
        (sampleSearch sampleSearchDialog.searchText db.rootGroup).flatMap
          specEntryMatches) :=
  ⟨rfl, by decide,
    (performSearch_search_mode_collects sampleSearch sampleFilter
      sampleSearchDialog rfl).2.1 (by decide)⟩
